import Mathlib

/-!
Verification of the OneDrive/SharePoint upload subsystem
(`src/extensions/msteams/src/graph-upload.ts`).

The TypeScript module is shallowly embedded: each exported function becomes a
pure Lean function from its inputs plus an oracle describing the HTTP responses
the remote end would return, to the list of HTTP requests the function performs
(its observable trace) together with its outcome (`Except UploadError _`,
mirroring the `throw new Error(...)` paths).  Bearer-token acquisition is an
opaque external collaborator in the source and is elided here; the
`fetch`-level `Response.ok` predicate (status in 200..299) is modelled by
`statusOk`.  JavaScript truthiness of an optional string field (`!data.id`
is true when the field is `undefined` or the empty string) is modelled by
`truthy : Option String → Bool`.
-/

namespace GraphUpload

def GRAPH_ROOT : String := "https://graph.microsoft.com/v1.0"

def GRAPH_BETA : String := "https://graph.microsoft.com/beta"

/-- Simple upload limit per Microsoft Graph API (4 MiB): `4 * 1024 * 1024`. -/
def SIMPLE_UPLOAD_LIMIT : Nat := 4 * 1024 * 1024

/-- Chunk size for resumable uploads (3.75 MiB), `3_932_160` in the source. -/
def RESUMABLE_CHUNK_SIZE : Nat := 3932160

/-- JavaScript truthiness of an optional string: `undefined` and `""` are falsy. -/
def truthy : Option String → Bool
  | none => false
  | some s => !s.isEmpty

/-- The `Response.ok` predicate of `fetch`: status in the range 200..299. -/
def statusOk (status : Nat) : Bool := 200 ≤ status && status ≤ 299

/-- Result of a successful upload (interface `OneDriveUploadResult`). -/
structure OneDriveUploadResult where
  id : String
  webUrl : String
  name : String
deriving DecidableEq, Repr

/-- The distinguishable failure modes of the subsystem.  The source throws
`Error` objects whose messages carry this data; the constructors keep the
distinguishing payload (phase, offset, HTTP status, response body). -/
inductive UploadError where
  | validation (message : String)
  | http (message : String) (status : Nat) (statusText : String) (body : String)
  | protocolChunk (offset : Nat) (status : Nat) (statusText : String) (body : String)
  | protocolExhausted
deriving DecidableEq, Repr

/-- One response of the resumable-session endpoint to a chunk `PUT`. -/
structure ChunkResponse where
  status : Nat
  statusText : String := ""
  id : Option String := none
  webUrl : Option String := none
  name : Option String := none
  bodyText : String := ""
deriving DecidableEq, Repr

/-- One chunk `PUT` as submitted by the loop: the byte range `[offset, endPos)`
of the payload, the `Content-Length` header value, and the `Content-Range`
header `bytes rangeStart-rangeEndIncl/rangeTotal`. -/
structure ChunkSubmission where
  offset : Nat
  endPos : Nat
  contentLength : Nat
  rangeStart : Nat
  rangeEndIncl : Nat
  rangeTotal : Nat
deriving DecidableEq, Repr, Inhabited

/-- The chunk submission the loop builds at a given `offset` for a payload of
`total` bytes: `end = min(offset + RESUMABLE_CHUNK_SIZE, total)`,
`Content-Length = chunk.length = end - offset`,
`Content-Range: bytes offset-(end-1)/total`. -/
def mkSub (total offset : Nat) : ChunkSubmission :=
  { offset := offset
    endPos := min (offset + RESUMABLE_CHUNK_SIZE) total
    contentLength := min (offset + RESUMABLE_CHUNK_SIZE) total - offset
    rangeStart := offset
    rangeEndIncl := min (offset + RESUMABLE_CHUNK_SIZE) total - 1
    rangeTotal := total }

@[simp] lemma mkSub_offset (total offset : Nat) : (mkSub total offset).offset = offset := rfl

@[simp] lemma mkSub_endPos (total offset : Nat) :
    (mkSub total offset).endPos = min (offset + RESUMABLE_CHUNK_SIZE) total := rfl

@[simp] lemma mkSub_contentLength (total offset : Nat) :
    (mkSub total offset).contentLength = min (offset + RESUMABLE_CHUNK_SIZE) total - offset := rfl

@[simp] lemma mkSub_rangeStart (total offset : Nat) : (mkSub total offset).rangeStart = offset :=
  rfl

@[simp] lemma mkSub_rangeEndIncl (total offset : Nat) :
    (mkSub total offset).rangeEndIncl = min (offset + RESUMABLE_CHUNK_SIZE) total - 1 := rfl

@[simp] lemma mkSub_rangeTotal (total offset : Nat) : (mkSub total offset).rangeTotal = total :=
  rfl

/-- The `while (offset < totalSize)` loop of `uploadViaResumableSession`.
`server i` is the response the session URL returns to the `i`-th chunk `PUT`.
The loop body is a direct transcription of lines 43-76 of the source; the
trailing `protocolExhausted` is the `throw` on line 78.  `fuel` is an upper
bound on the number of remaining iterations used only to make the recursion
structural; every iteration advances `offset` by at least one byte, so any
`fuel` with `totalSize ≤ offset + fuel` makes the `0` arm unreachable while
`offset < totalSize` (callers use `totalSize + 1`, and
`resumableLoopAux_fuel_irrel` proves the result independent of such a fuel). -/
def resumableLoopAux (server : Nat → ChunkResponse) (totalSize : Nat) :
    Nat → Nat → Nat → List ChunkSubmission × Except UploadError OneDriveUploadResult
  | 0, _, _ => ([], Except.error UploadError.protocolExhausted)
  | fuel + 1, offset, i =>
    if offset < totalSize then
      let sub := mkSub totalSize offset
      let res := server i
      if res.status = 200 ∨ res.status = 201 then
        if truthy res.id = false ∨ truthy res.webUrl = false ∨ truthy res.name = false then
          ([sub], Except.error
            (UploadError.validation "Resumable upload final response missing required fields"))
        else
          ([sub], Except.ok
            { id := res.id.getD "", webUrl := res.webUrl.getD "", name := res.name.getD "" })
      else if res.status ≠ 202 then
        ([sub], Except.error
          (UploadError.protocolChunk offset res.status res.statusText res.bodyText))
      else
        let rest := resumableLoopAux server totalSize fuel sub.endPos (i + 1)
        (sub :: rest.1, rest.2)
    else ([], Except.error UploadError.protocolExhausted)

/-- `uploadViaResumableSession` (lines 34-79): upload a payload of `totalSize`
bytes in chunks against a resumable session whose responses are given by
`server`.  Returns the submitted chunk trace and the outcome. -/
def uploadViaResumableSession (server : Nat → ChunkResponse) (totalSize : Nat) :
    List ChunkSubmission × Except UploadError OneDriveUploadResult :=
  resumableLoopAux server totalSize (totalSize + 1) 0 0

/-- The chunk `PUT`s a resumable transfer submits, in order. -/
def submittedChunks (server : Nat → ChunkResponse) (totalSize : Nat) : List ChunkSubmission :=
  (uploadViaResumableSession server totalSize).1

/-- The outcome of a resumable transfer. -/
def resumableResult (server : Nat → ChunkResponse) (totalSize : Nat) :
    Except UploadError OneDriveUploadResult :=
  (uploadViaResumableSession server totalSize).2

/-- Number of chunks needed for `total` bytes: `⌈total / RESUMABLE_CHUNK_SIZE⌉`. -/
def numChunks (total : Nat) : Nat :=
  (total + RESUMABLE_CHUNK_SIZE - 1) / RESUMABLE_CHUNK_SIZE

lemma chunk_lt_iff (total i : Nat) (h0 : 0 < total) :
    i * RESUMABLE_CHUNK_SIZE < total ↔ i < numChunks total := by
  unfold numChunks RESUMABLE_CHUNK_SIZE
  have h1 : i < (total + 3932160 - 1) / 3932160 ↔
      i + 1 ≤ (total + 3932160 - 1) / 3932160 := Iff.rfl
  rw [h1, Nat.le_div_iff_mul_le (by norm_num)]
  omega

lemma numChunks_pos (total : Nat) (h0 : 0 < total) : 0 < numChunks total := by
  have := (chunk_lt_iff total 0 h0).1 (by simpa using h0)
  exact this

lemma total_le_numChunks_mul (total : Nat) (h0 : 0 < total) :
    total ≤ numChunks total * RESUMABLE_CHUNK_SIZE := by
  by_contra hlt
  push_neg at hlt
  exact absurd ((chunk_lt_iff total _ h0).1 hlt) (lt_irrefl _)

lemma resumableLoopAux_fuel_irrel (server : Nat → ChunkResponse) (total : Nat) :
    ∀ f1 f2 offset i, total ≤ offset + f1 → total ≤ offset + f2 →
      resumableLoopAux server total f1 offset i = resumableLoopAux server total f2 offset i := by
  intro f1
  induction f1 with
  | zero =>
    intro f2 offset i h1 h2
    have hoff : ¬ offset < total := by omega
    cases f2 with
    | zero => rfl
    | succ g => simp only [resumableLoopAux, if_neg hoff]
  | succ g ih =>
    intro f2 offset i h1 h2
    by_cases hoff : offset < total
    · cases f2 with
      | zero => omega
      | succ g2 =>
        have hC : 0 < RESUMABLE_CHUNK_SIZE := by norm_num [RESUMABLE_CHUNK_SIZE]
        have hend1 : offset + 1 ≤ (mkSub total offset).endPos := by
          simp only [mkSub]; omega
        have hrec := ih g2 (mkSub total offset).endPos (i + 1) (by omega) (by omega)
        simp only [resumableLoopAux, if_pos hoff, hrec]
    · cases f2 with
      | zero => simp only [resumableLoopAux, if_neg hoff]
      | succ g2 => simp only [resumableLoopAux, if_neg hoff]

/-- The loop run with canonical (always-sufficient) fuel, from a given offset
and submission index. -/
def runFrom (server : Nat → ChunkResponse) (total offset i : Nat) :
    List ChunkSubmission × Except UploadError OneDriveUploadResult :=
  resumableLoopAux server total (total + 1) offset i

lemma uploadViaResumableSession_eq_runFrom (server : Nat → ChunkResponse) (total : Nat) :
    uploadViaResumableSession server total = runFrom server total 0 0 := rfl

lemma runFrom_exit (server : Nat → ChunkResponse) (total offset i : Nat)
    (h : ¬ offset < total) :
    runFrom server total offset i = ([], Except.error UploadError.protocolExhausted) := by
  unfold runFrom
  simp only [resumableLoopAux, if_neg h]

lemma runFrom_step_202 (server : Nat → ChunkResponse) (total offset i : Nat)
    (h : offset < total) (hs : (server i).status = 202) :
    runFrom server total offset i =
      (mkSub total offset :: (runFrom server total (mkSub total offset).endPos (i + 1)).1,
       (runFrom server total (mkSub total offset).endPos (i + 1)).2) := by
  have hir := resumableLoopAux_fuel_irrel server total total (total + 1)
    (mkSub total offset).endPos (i + 1) (by simp only [mkSub]; omega)
    (by simp only [mkSub]; omega)
  unfold runFrom
  simp only [resumableLoopAux, if_pos h, hs, hir]
  norm_num

lemma runFrom_step_done (server : Nat → ChunkResponse) (total offset i : Nat)
    (h : offset < total) (hs : (server i).status = 200 ∨ (server i).status = 201) :
    runFrom server total offset i =
      ([mkSub total offset],
       if truthy (server i).id = false ∨ truthy (server i).webUrl = false ∨
           truthy (server i).name = false then
         Except.error
           (UploadError.validation "Resumable upload final response missing required fields")
       else
         Except.ok
           { id := (server i).id.getD "", webUrl := (server i).webUrl.getD "",
             name := (server i).name.getD "" }) := by
  unfold runFrom
  simp only [resumableLoopAux, if_pos h, if_pos hs]
  split <;> rfl

lemma runFrom_step_bad (server : Nat → ChunkResponse) (total offset i : Nat)
    (h : offset < total) (h200 : (server i).status ≠ 200) (h201 : (server i).status ≠ 201)
    (h202 : (server i).status ≠ 202) :
    runFrom server total offset i =
      ([mkSub total offset],
       Except.error (UploadError.protocolChunk offset (server i).status
         (server i).statusText (server i).bodyText)) := by
  unfold runFrom
  have hnot : ¬ ((server i).status = 200 ∨ (server i).status = 201) := by
    intro hc
    rcases hc with hc | hc
    · exact h200 hc
    · exact h201 hc
  simp only [resumableLoopAux, if_pos h, if_neg hnot, if_pos h202]

lemma runFrom_reach (server : Nat → ChunkResponse) (total : Nat) (h0 : 0 < total) :
    ∀ k, k ≤ numChunks total → (∀ j, j < k → (server j).status = 202) →
    runFrom server total 0 0 =
      ((List.range k).map (fun j => mkSub total (j * RESUMABLE_CHUNK_SIZE)) ++
         (runFrom server total (k * RESUMABLE_CHUNK_SIZE) k).1,
       (runFrom server total (k * RESUMABLE_CHUNK_SIZE) k).2) := by
  intro k
  induction k with
  | zero =>
    intro _ _
    simp
  | succ k ih =>
    intro hk h202
    have hklt : k < numChunks total := hk
    have hoff : k * RESUMABLE_CHUNK_SIZE < total := (chunk_lt_iff total k h0).2 hklt
    have h202k : (server k).status = 202 := h202 k (Nat.lt_succ_self k)
    rw [ih (Nat.le_of_succ_le hk) (fun j hj => h202 j (Nat.lt_succ_of_lt hj))]
    rw [runFrom_step_202 server total _ k hoff h202k]
    have hend : (mkSub total (k * RESUMABLE_CHUNK_SIZE)).endPos =
        min ((k + 1) * RESUMABLE_CHUNK_SIZE) total := by
      rw [mkSub_endPos, add_one_mul]
    by_cases hcase : (k + 1) * RESUMABLE_CHUNK_SIZE ≤ total
    · have heq : (mkSub total (k * RESUMABLE_CHUNK_SIZE)).endPos =
          (k + 1) * RESUMABLE_CHUNK_SIZE := by
        rw [hend]; exact min_eq_left hcase
      rw [heq, List.range_succ]
      simp
    · have heq : (mkSub total (k * RESUMABLE_CHUNK_SIZE)).endPos = total := by
        rw [hend]; exact min_eq_right (le_of_not_le hcase)
      rw [heq, runFrom_exit server total total (k + 1) (lt_irrefl total),
        runFrom_exit server total ((k + 1) * RESUMABLE_CHUNK_SIZE) (k + 1)
          (fun hlt => hcase hlt.le),
        List.range_succ]
      simp

lemma runFrom_full_trace (server : Nat → ChunkResponse) (total : Nat) (h0 : 0 < total)
    (h202 : ∀ j, j + 1 < numChunks total → (server j).status = 202) :
    (runFrom server total 0 0).1 =
      (List.range (numChunks total)).map (fun j => mkSub total (j * RESUMABLE_CHUNK_SIZE)) := by
  have hn : 0 < numChunks total := numChunks_pos total h0
  have hreach := runFrom_reach server total h0 (numChunks total - 1) (by omega)
    (fun j hj => h202 j (by omega))
  rw [hreach]
  have hoff : (numChunks total - 1) * RESUMABLE_CHUNK_SIZE < total :=
    (chunk_lt_iff total _ h0).2 (by omega)
  have htot := total_le_numChunks_mul total h0
  have hmul : (numChunks total - 1) * RESUMABLE_CHUNK_SIZE + RESUMABLE_CHUNK_SIZE =
      numChunks total * RESUMABLE_CHUNK_SIZE := by
    rw [← add_one_mul]
    congr 1
    omega
  have hend : (mkSub total ((numChunks total - 1) * RESUMABLE_CHUNK_SIZE)).endPos = total := by
    rw [mkSub_endPos, hmul]
    exact min_eq_right htot
  by_cases hs : (server (numChunks total - 1)).status = 200 ∨
      (server (numChunks total - 1)).status = 201
  · rw [runFrom_step_done server total _ _ hoff hs]
    conv_rhs => rw [show numChunks total = numChunks total - 1 + 1 from by omega]
    rw [List.range_succ]
    simp
  · push_neg at hs
    by_cases hs2 : (server (numChunks total - 1)).status = 202
    · rw [runFrom_step_202 server total _ _ hoff hs2, hend,
        runFrom_exit server total total (numChunks total - 1 + 1) (lt_irrefl total)]
      conv_rhs => rw [show numChunks total = numChunks total - 1 + 1 from by omega]
      rw [List.range_succ]
      simp
    · rw [runFrom_step_bad server total _ _ hoff hs.1 hs.2 hs2]
      conv_rhs => rw [show numChunks total = numChunks total - 1 + 1 from by omega]
      rw [List.range_succ]
      simp

lemma getD_map_range {α : Type} (f : Nat → α) (n i : Nat) (d : α) (h : i < n) :
    ((List.range n).map f).getD i d = f i := by
  have hlen : i < ((List.range n).map f).length := by simpa using h
  rw [List.getD_eq_getElem _ _ hlen]
  simp

lemma submittedChunks_full (server : Nat → ChunkResponse) (total : Nat) (h0 : 0 < total)
    (h202 : ∀ j, j + 1 < numChunks total → (server j).status = 202) :
    submittedChunks server total =
      (List.range (numChunks total)).map (fun j => mkSub total (j * RESUMABLE_CHUNK_SIZE)) := by
  unfold submittedChunks
  rw [uploadViaResumableSession_eq_runFrom]
  exact runFrom_full_trace server total h0 h202

/-- A session that answers 202 (partial acceptance) to every chunk `PUT`. -/
def server202 : Nat → ChunkResponse := fun _ => { status := 202 }

/-- C1: for every payload with length over 4 MiB driven through the resumable
executor, when the session accepts every non-final chunk with 202 the
submitted chunks have offsets forming a strictly increasing, contiguous
sequence starting at 0 and ending exactly at the total length; every
non-final chunk has length exactly `RESUMABLE_CHUNK_SIZE` (3,932,160 bytes),
the final chunk has length `total % RESUMABLE_CHUNK_SIZE` (or the full
constant when `total` is an exact multiple), and each chunk carries a
byte-range descriptor stating the inclusive start, the inclusive end minus
one, and the total size. -/
theorem C1_resumable_chunk_sequence (server : Nat → ChunkResponse) (total : Nat)
    (hbig : SIMPLE_UPLOAD_LIMIT < total)
    (h202 : ∀ j, j + 1 < numChunks total → (server j).status = 202) :
    (submittedChunks server total).length = numChunks total ∧
    (∀ i, i < (submittedChunks server total).length →
      ((submittedChunks server total).getD i default).offset = i * RESUMABLE_CHUNK_SIZE) ∧
    ((submittedChunks server total).getD 0 default).offset = 0 ∧
    (∀ i, i + 1 < (submittedChunks server total).length →
      ((submittedChunks server total).getD (i + 1) default).offset =
        ((submittedChunks server total).getD i default).endPos ∧
      ((submittedChunks server total).getD i default).offset <
        ((submittedChunks server total).getD (i + 1) default).offset) ∧
    ((submittedChunks server total).getD ((submittedChunks server total).length - 1)
        default).endPos = total ∧
    (∀ i, i + 1 < (submittedChunks server total).length →
      ((submittedChunks server total).getD i default).contentLength = RESUMABLE_CHUNK_SIZE) ∧
    ((submittedChunks server total).getD ((submittedChunks server total).length - 1)
        default).contentLength =
      (if total % RESUMABLE_CHUNK_SIZE = 0 then RESUMABLE_CHUNK_SIZE
       else total % RESUMABLE_CHUNK_SIZE) ∧
    (∀ i, i < (submittedChunks server total).length →
      ((submittedChunks server total).getD i default).rangeStart =
        ((submittedChunks server total).getD i default).offset ∧
      ((submittedChunks server total).getD i default).rangeEndIncl =
        ((submittedChunks server total).getD i default).endPos - 1 ∧
      ((submittedChunks server total).getD i default).rangeTotal = total ∧
      ((submittedChunks server total).getD i default).contentLength =
        ((submittedChunks server total).getD i default).endPos -
          ((submittedChunks server total).getD i default).offset) := by
  have h0 : 0 < total := by
    have : 0 < SIMPLE_UPLOAD_LIMIT := by norm_num [SIMPLE_UPLOAD_LIMIT]
    omega
  have hC : 0 < RESUMABLE_CHUNK_SIZE := by norm_num [RESUMABLE_CHUNK_SIZE]
  have hfull := submittedChunks_full server total h0 h202
  have hlen : (submittedChunks server total).length = numChunks total := by
    rw [hfull]; simp
  have hget : ∀ i, i < numChunks total →
      (submittedChunks server total).getD i default =
        mkSub total (i * RESUMABLE_CHUNK_SIZE) := by
    intro i hi
    rw [hfull]
    exact getD_map_range _ _ _ _ hi
  have hn : 0 < numChunks total := numChunks_pos total h0
  have htot := total_le_numChunks_mul total h0
  have hlast : (submittedChunks server total).getD ((submittedChunks server total).length - 1)
      default = mkSub total ((numChunks total - 1) * RESUMABLE_CHUNK_SIZE) := by
    rw [hlen]
    exact hget (numChunks total - 1) (by omega)
  have hlastoff : (numChunks total - 1) * RESUMABLE_CHUNK_SIZE < total :=
    (chunk_lt_iff total _ h0).2 (by omega)
  have hlastend : min ((numChunks total - 1) * RESUMABLE_CHUNK_SIZE + RESUMABLE_CHUNK_SIZE)
      total = total := by
    have hmul : (numChunks total - 1) * RESUMABLE_CHUNK_SIZE + RESUMABLE_CHUNK_SIZE =
        numChunks total * RESUMABLE_CHUNK_SIZE := by
      rw [← add_one_mul]
      congr 1
      omega
    rw [hmul]
    exact min_eq_right htot
  refine ⟨hlen, ?_, ?_, ?_, ?_, ?_, ?_, ?_⟩
  · intro i hi
    rw [hlen] at hi
    rw [hget i hi, mkSub_offset]
  · rw [hget 0 hn, mkSub_offset, Nat.zero_mul]
  · intro i hi
    rw [hlen] at hi
    have hi1 : i + 1 < numChunks total := hi
    have hi0 : i < numChunks total := by omega
    have hoff1 : (i + 1) * RESUMABLE_CHUNK_SIZE < total := (chunk_lt_iff total _ h0).2 hi1
    rw [hget i hi0, hget (i + 1) hi1, mkSub_offset, mkSub_endPos]
    constructor
    · rw [min_eq_left (by rw [← add_one_mul]; exact hoff1.le), add_one_mul]
    · exact Nat.mul_lt_mul_of_lt_of_le (Nat.lt_succ_self i) le_rfl hC
  · rw [hlast, mkSub_endPos, hlastend]
  · intro i hi
    rw [hlen] at hi
    have hi0 : i < numChunks total := by omega
    have hoff1 : (i + 1) * RESUMABLE_CHUNK_SIZE < total := (chunk_lt_iff total _ h0).2 hi
    rw [hget i hi0, mkSub_contentLength,
      min_eq_left (by rw [← add_one_mul]; exact hoff1.le), Nat.add_sub_cancel_left]
  · rw [hlast, mkSub_contentLength, hlastend]
    have hle : total ≤ numChunks total * RESUMABLE_CHUNK_SIZE := htot
    simp only [RESUMABLE_CHUNK_SIZE] at hlastoff hle ⊢
    split <;> omega
  · intro i hi
    rw [hlen] at hi
    rw [hget i hi, mkSub_rangeStart, mkSub_rangeEndIncl, mkSub_rangeTotal,
      mkSub_contentLength, mkSub_offset, mkSub_endPos]
    exact ⟨rfl, rfl, rfl, rfl⟩

/-- Witness for C1 at a 10 MiB payload against an all-202 session. -/
theorem C1_resumable_chunk_sequence_witness :
    (submittedChunks server202 10485760).length = numChunks 10485760 ∧
    (∀ i, i < (submittedChunks server202 10485760).length →
      ((submittedChunks server202 10485760).getD i default).offset =
        i * RESUMABLE_CHUNK_SIZE) ∧
    ((submittedChunks server202 10485760).getD 0 default).offset = 0 ∧
    (∀ i, i + 1 < (submittedChunks server202 10485760).length →
      ((submittedChunks server202 10485760).getD (i + 1) default).offset =
        ((submittedChunks server202 10485760).getD i default).endPos ∧
      ((submittedChunks server202 10485760).getD i default).offset <
        ((submittedChunks server202 10485760).getD (i + 1) default).offset) ∧
    ((submittedChunks server202 10485760).getD
        ((submittedChunks server202 10485760).length - 1) default).endPos = 10485760 ∧
    (∀ i, i + 1 < (submittedChunks server202 10485760).length →
      ((submittedChunks server202 10485760).getD i default).contentLength =
        RESUMABLE_CHUNK_SIZE) ∧
    ((submittedChunks server202 10485760).getD
        ((submittedChunks server202 10485760).length - 1) default).contentLength =
      (if 10485760 % RESUMABLE_CHUNK_SIZE = 0 then RESUMABLE_CHUNK_SIZE
       else 10485760 % RESUMABLE_CHUNK_SIZE) ∧
    (∀ i, i < (submittedChunks server202 10485760).length →
      ((submittedChunks server202 10485760).getD i default).rangeStart =
        ((submittedChunks server202 10485760).getD i default).offset ∧
      ((submittedChunks server202 10485760).getD i default).rangeEndIncl =
        ((submittedChunks server202 10485760).getD i default).endPos - 1 ∧
      ((submittedChunks server202 10485760).getD i default).rangeTotal = 10485760 ∧
      ((submittedChunks server202 10485760).getD i default).contentLength =
        ((submittedChunks server202 10485760).getD i default).endPos -
          ((submittedChunks server202 10485760).getD i default).offset) :=
  C1_resumable_chunk_sequence server202 10485760
    (by norm_num [SIMPLE_UPLOAD_LIMIT]) (fun j _ => rfl)

/-- C2: if any chunk submission returns 200 or 201 the loop terminates
immediately with no further submissions, regardless of the remaining offset,
and the operation returns an `UploadResult` built from the response body
fields `id`, `webUrl`, `name` — or a validation error if any of the three is
absent (or empty). -/
theorem C2_completion_authoritative (server : Nat → ChunkResponse) (total k : Nat)
    (h0 : 0 < total) (hk : k < numChunks total)
    (hpre : ∀ j, j < k → (server j).status = 202)
    (hdone : (server k).status = 200 ∨ (server k).status = 201) :
    (submittedChunks server total).length = k + 1 ∧
    resumableResult server total =
      (if truthy (server k).id = false ∨ truthy (server k).webUrl = false ∨
          truthy (server k).name = false then
        Except.error
          (UploadError.validation "Resumable upload final response missing required fields")
      else
        Except.ok
          { id := (server k).id.getD "", webUrl := (server k).webUrl.getD "",
            name := (server k).name.getD "" }) := by
  have hreach := runFrom_reach server total h0 k hk.le hpre
  have hoff : k * RESUMABLE_CHUNK_SIZE < total := (chunk_lt_iff total k h0).2 hk
  have hstep := runFrom_step_done server total (k * RESUMABLE_CHUNK_SIZE) k hoff hdone
  constructor
  · unfold submittedChunks
    rw [uploadViaResumableSession_eq_runFrom, hreach, hstep]
    simp
  · unfold resumableResult
    rw [uploadViaResumableSession_eq_runFrom, hreach, hstep]

/-- Witness for C2: first chunk answered 201 with all fields present ends a
5-byte transfer at once with the parsed result. -/
theorem C2_completion_authoritative_witness :
    (submittedChunks
        (fun _ => { status := 201, id := some "x", webUrl := some "u", name := some "f" })
        5).length = 0 + 1 ∧
    resumableResult
        (fun _ => { status := 201, id := some "x", webUrl := some "u", name := some "f" })
        5 =
      (if truthy (some "x") = false ∨ truthy (some "u") = false ∨
          truthy (some "f") = false then
        Except.error
          (UploadError.validation "Resumable upload final response missing required fields")
      else
        Except.ok
          { id := (some "x").getD "", webUrl := (some "u").getD "",
            name := (some "f").getD "" }) :=
  C2_completion_authoritative
    (fun _ => { status := 201, id := some "x", webUrl := some "u", name := some "f" })
    5 0 (by norm_num) (by norm_num [numChunks, RESUMABLE_CHUNK_SIZE])
    (fun j hj => absurd hj (by omega)) (Or.inr rfl)

/-- C3: a chunk response with status outside 200/201/202 fails the transfer
immediately with an error carrying the offset of the failed chunk, the
status, and the response body; no further chunk submission occurs. -/
theorem C3_chunk_failure_aborts (server : Nat → ChunkResponse) (total k : Nat)
    (h0 : 0 < total) (hk : k < numChunks total)
    (hpre : ∀ j, j < k → (server j).status = 202)
    (h200 : (server k).status ≠ 200) (h201 : (server k).status ≠ 201)
    (h202 : (server k).status ≠ 202) :
    (submittedChunks server total).length = k + 1 ∧
    resumableResult server total =
      Except.error (UploadError.protocolChunk (k * RESUMABLE_CHUNK_SIZE)
        (server k).status (server k).statusText (server k).bodyText) := by
  have hreach := runFrom_reach server total h0 k hk.le hpre
  have hoff : k * RESUMABLE_CHUNK_SIZE < total := (chunk_lt_iff total k h0).2 hk
  have hstep := runFrom_step_bad server total (k * RESUMABLE_CHUNK_SIZE) k hoff h200 h201 h202
  constructor
  · unfold submittedChunks
    rw [uploadViaResumableSession_eq_runFrom, hreach, hstep]
    simp
  · unfold resumableResult
    rw [uploadViaResumableSession_eq_runFrom, hreach, hstep]

/-- Witness for C3: a 500 on the first chunk of a 5-byte transfer aborts with
the offset, status and body in the error. -/
theorem C3_chunk_failure_aborts_witness :
    (submittedChunks (fun _ => { status := 500, statusText := "ISE", bodyText := "boom" })
        5).length = 0 + 1 ∧
    resumableResult (fun _ => { status := 500, statusText := "ISE", bodyText := "boom" }) 5 =
      Except.error (UploadError.protocolChunk (0 * RESUMABLE_CHUNK_SIZE) 500 "ISE" "boom") :=
  C3_chunk_failure_aborts
    (fun _ => { status := 500, statusText := "ISE", bodyText := "boom" }) 5 0
    (by norm_num) (by norm_num [numChunks, RESUMABLE_CHUNK_SIZE])
    (fun j hj => absurd hj (by omega)) (by norm_num) (by norm_num) (by norm_num)

/-- C4: when every chunk submission is answered 202 and the offset reaches the
total without any 200/201, the transfer fails with the protocol error for a
session exhausted without completion, not with success. -/
theorem C4_exhaustion_is_error (server : Nat → ChunkResponse) (total : Nat)
    (h0 : 0 < total) (h202 : ∀ j, j < numChunks total → (server j).status = 202) :
    (submittedChunks server total).length = numChunks total ∧
    resumableResult server total = Except.error UploadError.protocolExhausted := by
  have hreach := runFrom_reach server total h0 (numChunks total) le_rfl h202
  have hexit : runFrom server total (numChunks total * RESUMABLE_CHUNK_SIZE)
      (numChunks total) = ([], Except.error UploadError.protocolExhausted) :=
    runFrom_exit _ _ _ _ (by have := total_le_numChunks_mul total h0; omega)
  constructor
  · unfold submittedChunks
    rw [uploadViaResumableSession_eq_runFrom, hreach, hexit]
    simp
  · unfold resumableResult
    rw [uploadViaResumableSession_eq_runFrom, hreach, hexit]

/-- Witness for C4: a 5-byte transfer answered only 202 ends in the
exhaustion protocol error. -/
theorem C4_exhaustion_is_error_witness :
    (submittedChunks server202 5).length = numChunks 5 ∧
    resumableResult server202 5 = Except.error UploadError.protocolExhausted :=
  C4_exhaustion_is_error server202 5 (by norm_num) (fun j _ => rfl)

/-- Response of a `createUploadSession` POST. -/
structure SessionResponse where
  status : Nat
  statusText : String := ""
  uploadUrl : Option String := none
  bodyText : String := ""
deriving DecidableEq, Repr

/-- Response of a simple single-shot upload `PUT`. -/
structure SimpleUploadResponse where
  status : Nat
  statusText : String := ""
  id : Option String := none
  webUrl : Option String := none
  name : Option String := none
  bodyText : String := ""
deriving DecidableEq, Repr

/-- Which backing store root a transfer addresses: the personal OneDrive
(`/me/drive`) or a SharePoint site (`/sites/siteId/drive`). -/
inductive StoreTarget where
  | oneDrive
  | sharePoint (siteId : String)
deriving DecidableEq, Repr

/-- The observable HTTP requests of the subsystem (auth headers elided). -/
inductive GraphCall where
  | createSession (target : StoreTarget) (filename : String)
  | simplePut (target : StoreTarget) (filename : String) (contentType : String) (length : Nat)
  | chunkPut (sub : ChunkSubmission)
  | getMembers (chatId : String)
  | getItemProps (siteId : String) (itemId : String)
  | createLink (apiRoot : String) (siteId : String) (itemId : String)
      (bodyType : String) (bodyScope : String) (recipients : Option (List String))
deriving DecidableEq, Repr

/-- The remote responses an upload run may consume. -/
structure UploadEnv where
  sessionRes : SessionResponse
  simpleRes : SimpleUploadResponse
  chunkServer : Nat → ChunkResponse

/-- `uploadToOneDrive` (lines 85-160): strategy chosen by payload length; over
4 MiB a resumable session is created on `/me/drive` and driven by
`uploadViaResumableSession`; otherwise one simple `PUT`, whose 2xx response
must carry `id`, `webUrl`, `name`. -/
def uploadToOneDrive (env : UploadEnv) (bufLen : Nat) (filename : String)
    (contentType : Option String) :
    List GraphCall × Except UploadError OneDriveUploadResult :=
  if bufLen > SIMPLE_UPLOAD_LIMIT then
    let call := GraphCall.createSession StoreTarget.oneDrive filename
    let sres := env.sessionRes
    if statusOk sres.status = false then
      ([call], Except.error (UploadError.http "OneDrive create upload session failed"
        sres.status sres.statusText sres.bodyText))
    else if truthy sres.uploadUrl = false then
      ([call], Except.error
        (UploadError.validation "OneDrive create upload session response missing uploadUrl"))
    else
      let run := uploadViaResumableSession env.chunkServer bufLen
      (call :: run.1.map GraphCall.chunkPut, run.2)
  else
    let call := GraphCall.simplePut StoreTarget.oneDrive filename
      (contentType.getD "application/octet-stream") bufLen
    let r := env.simpleRes
    if statusOk r.status = false then
      ([call], Except.error (UploadError.http "OneDrive upload failed"
        r.status r.statusText r.bodyText))
    else if truthy r.id = false ∨ truthy r.webUrl = false ∨ truthy r.name = false then
      ([call], Except.error (UploadError.validation "OneDrive upload response missing required fields"))
    else
      ([call], Except.ok
        { id := r.id.getD "", webUrl := r.webUrl.getD "", name := r.name.getD "" })

/-- `uploadToSharePoint` (lines 260-339): identical strategy selection and
response contract, addressed at `/sites/siteId/drive`. -/
def uploadToSharePoint (env : UploadEnv) (siteId : String) (bufLen : Nat) (filename : String)
    (contentType : Option String) :
    List GraphCall × Except UploadError OneDriveUploadResult :=
  if bufLen > SIMPLE_UPLOAD_LIMIT then
    let call := GraphCall.createSession (StoreTarget.sharePoint siteId) filename
    let sres := env.sessionRes
    if statusOk sres.status = false then
      ([call], Except.error (UploadError.http "SharePoint create upload session failed"
        sres.status sres.statusText sres.bodyText))
    else if truthy sres.uploadUrl = false then
      ([call], Except.error
        (UploadError.validation "SharePoint create upload session response missing uploadUrl"))
    else
      let run := uploadViaResumableSession env.chunkServer bufLen
      (call :: run.1.map GraphCall.chunkPut, run.2)
  else
    let call := GraphCall.simplePut (StoreTarget.sharePoint siteId) filename
      (contentType.getD "application/octet-stream") bufLen
    let r := env.simpleRes
    if statusOk r.status = false then
      ([call], Except.error (UploadError.http "SharePoint upload failed"
        r.status r.statusText r.bodyText))
    else if truthy r.id = false ∨ truthy r.webUrl = false ∨ truthy r.name = false then
      ([call], Except.error
        (UploadError.validation "SharePoint upload response missing required fields"))
    else
      ([call], Except.ok
        { id := r.id.getD "", webUrl := r.webUrl.getD "", name := r.name.getD "" })

/-- Response of the driveItem properties GET. -/
structure ItemPropsResponse where
  status : Nat
  statusText : String := ""
  eTag : Option String := none
  webDavUrl : Option String := none
  name : Option String := none
  bodyText : String := ""
deriving DecidableEq, Repr

/-- Interface `DriveItemProperties` of the source. -/
structure DriveItemProperties where
  eTag : String
  webDavUrl : String
  name : String
deriving DecidableEq, Repr

/-- `getDriveItemProperties` (lines 366-400): all three of `eTag`,
`webDavUrl`, `name` are required on a 2xx response. -/
def getDriveItemProperties (resp : ItemPropsResponse) (siteId itemId : String) :
    List GraphCall × Except UploadError DriveItemProperties :=
  ([GraphCall.getItemProps siteId itemId],
   if statusOk resp.status = false then
     Except.error (UploadError.http "Get driveItem properties failed"
       resp.status resp.statusText resp.bodyText)
   else if truthy resp.eTag = false ∨ truthy resp.webDavUrl = false ∨
       truthy resp.name = false then
     Except.error (UploadError.validation
       "DriveItem response missing required properties (eTag, webDavUrl, or name)")
   else
     Except.ok
       { eTag := resp.eTag.getD "", webDavUrl := resp.webDavUrl.getD "",
         name := resp.name.getD "" })

/-- One entry of the chat-members response body's `value` array. -/
structure MemberEntry where
  userId : Option String := none
  displayName : Option String := none
deriving DecidableEq, Repr

/-- Response of the chat-members GET. -/
structure MembersResponse where
  status : Nat
  statusText : String := ""
  value : Option (List MemberEntry) := none
  bodyText : String := ""
deriving DecidableEq, Repr

/-- Interface `ChatMember` of the source. -/
structure ChatMember where
  aadObjectId : String
  displayName : Option String := none
deriving DecidableEq, Repr

/-- The member list `getChatMembers` computes from a response body:
`(data.value ?? []).map(m => ({aadObjectId: m.userId ?? "", displayName:
m.displayName})).filter(m => m.aadObjectId)`. -/
def membersOf (resp : MembersResponse) : List ChatMember :=
  ((resp.value.getD []).map
    (fun m => { aadObjectId := m.userId.getD "", displayName := m.displayName : ChatMember })).filter
    (fun m => !m.aadObjectId.isEmpty)

/-- `getChatMembers` (lines 406-436). -/
def getChatMembers (resp : MembersResponse) (chatId : String) :
    List GraphCall × Except UploadError (List ChatMember) :=
  ([GraphCall.getMembers chatId],
   if statusOk resp.status = false then
     Except.error (UploadError.http "Get chat members failed"
       resp.status resp.statusText resp.bodyText)
   else
     Except.ok (membersOf resp))

/-- Sharing scope accepted by `createSharePointSharingLink`:
`"organization" | "users"` in the source. -/
inductive SPScope where
  | organization
  | users
deriving DecidableEq, Repr

/-- Response of a `createLink` POST; `linkWebUrl` models `data.link?.webUrl`. -/
structure LinkResponse where
  status : Nat
  statusText : String := ""
  linkWebUrl : Option String := none
  bodyText : String := ""
deriving DecidableEq, Repr

/-- Interface `OneDriveSharingLink` of the source. -/
structure OneDriveSharingLink where
  webUrl : String
deriving DecidableEq, Repr

/-- `createSharePointSharingLink` (lines 443-500): per-user scope targets the
beta API root, organization scope the v1.0 root; body is
`{type: "view", scope}` with `recipients` added exactly when the scope is
`users` and the recipient list is present and non-empty. -/
def createSharePointSharingLink (resp : LinkResponse) (siteId itemId : String)
    (scopeParam : Option SPScope) (recipientObjectIds : Option (List String)) :
    List GraphCall × Except UploadError OneDriveSharingLink :=
  let scope := scopeParam.getD SPScope.organization
  let apiRoot := if scope = SPScope.users then GRAPH_BETA else GRAPH_ROOT
  let bodyScope := if scope = SPScope.users then "users" else "organization"
  let recipients :=
    if scope = SPScope.users ∧ recipientObjectIds.getD [] ≠ [] then
      some (recipientObjectIds.getD [])
    else none
  ([GraphCall.createLink apiRoot siteId itemId "view" bodyScope recipients],
   if statusOk resp.status = false then
     Except.error (UploadError.http "Create SharePoint sharing link failed"
       resp.status resp.statusText resp.bodyText)
   else if truthy resp.linkWebUrl = false then
     Except.error (UploadError.validation
       "Create SharePoint sharing link response missing webUrl")
   else
     Except.ok { webUrl := resp.linkWebUrl.getD "" })

/-- The remote responses an upload-and-share run may consume. -/
structure ShareEnv where
  sessionRes : SessionResponse
  simpleRes : SimpleUploadResponse
  chunkServer : Nat → ChunkResponse
  membersRes : MembersResponse
  linkRes : LinkResponse

/-- Combined result of `uploadAndShareSharePoint`. -/
structure ShareResult where
  itemId : String
  webUrl : String
  shareUrl : String
  name : String
deriving DecidableEq, Repr

/-- `uploadAndShareSharePoint` (lines 512-575): upload, then decide the
sharing scope — per-user only when requested, a chat id is supplied (and
truthy), and member resolution succeeds with a non-empty list; any member
resolution failure is swallowed and falls back to organization scope — then
create the sharing link. -/
def uploadAndShareSharePoint (env : ShareEnv) (bufLen : Nat) (filename : String)
    (contentType : Option String) (siteId : String) (chatId : Option String)
    (usePerUserSharing : Bool) :
    List GraphCall × Except UploadError ShareResult :=
  let up := uploadToSharePoint
    { sessionRes := env.sessionRes, simpleRes := env.simpleRes,
      chunkServer := env.chunkServer } siteId bufLen filename contentType
  match up.2 with
  | Except.error e => (up.1, Except.error e)
  | Except.ok uploaded =>
    let memberStep : List GraphCall × SPScope × Option (List String) :=
      if usePerUserSharing = true ∧ truthy chatId = true then
        let gm := getChatMembers env.membersRes (chatId.getD "")
        match gm.2 with
        | Except.ok members =>
          if members.length > 0 then
            (gm.1, SPScope.users, some (members.map (fun m => m.aadObjectId)))
          else
            (gm.1, SPScope.organization, none)
        | Except.error _ => (gm.1, SPScope.organization, none)
      else ([], SPScope.organization, none)
    let link := createSharePointSharingLink env.linkRes siteId uploaded.id
      (some memberStep.2.1) memberStep.2.2
    (up.1 ++ memberStep.1 ++ link.1,
     match link.2 with
     | Except.error e => Except.error e
     | Except.ok l =>
       Except.ok
         { itemId := uploaded.id, webUrl := uploaded.webUrl, shareUrl := l.webUrl,
           name := uploaded.name })

/-- C5: `uploadToOneDrive` and `uploadToSharePoint` choose the transfer
strategy purely from the byte length: at most 4 MiB, exactly one simple
single-shot `PUT` occurs and no upload session is created; over 4 MiB a
resumable session is created and (when the session response is valid) the
resumable executor drives the transfer. -/
theorem C5_strategy_by_length (env : UploadEnv) (siteId : String) (bufLen : Nat)
    (filename : String) (ct : Option String) :
    (bufLen ≤ SIMPLE_UPLOAD_LIMIT →
      (uploadToOneDrive env bufLen filename ct).1 =
        [GraphCall.simplePut StoreTarget.oneDrive filename
          (ct.getD "application/octet-stream") bufLen] ∧
      (uploadToSharePoint env siteId bufLen filename ct).1 =
        [GraphCall.simplePut (StoreTarget.sharePoint siteId) filename
          (ct.getD "application/octet-stream") bufLen]) ∧
    (SIMPLE_UPLOAD_LIMIT < bufLen →
      ((statusOk env.sessionRes.status = false ∨ truthy env.sessionRes.uploadUrl = false) →
        (uploadToOneDrive env bufLen filename ct).1 =
          [GraphCall.createSession StoreTarget.oneDrive filename] ∧
        (uploadToSharePoint env siteId bufLen filename ct).1 =
          [GraphCall.createSession (StoreTarget.sharePoint siteId) filename]) ∧
      (statusOk env.sessionRes.status = true → truthy env.sessionRes.uploadUrl = true →
        (uploadToOneDrive env bufLen filename ct).1 =
          GraphCall.createSession StoreTarget.oneDrive filename ::
            (submittedChunks env.chunkServer bufLen).map GraphCall.chunkPut ∧
        (uploadToOneDrive env bufLen filename ct).2 =
          resumableResult env.chunkServer bufLen ∧
        (uploadToSharePoint env siteId bufLen filename ct).1 =
          GraphCall.createSession (StoreTarget.sharePoint siteId) filename ::
            (submittedChunks env.chunkServer bufLen).map GraphCall.chunkPut ∧
        (uploadToSharePoint env siteId bufLen filename ct).2 =
          resumableResult env.chunkServer bufLen)) := by
  refine ⟨?_, ?_⟩
  · intro h
    have hgt : ¬ bufLen > SIMPLE_UPLOAD_LIMIT := by omega
    constructor
    · simp only [uploadToOneDrive, if_neg hgt]
      split
      · rfl
      · split <;> rfl
    · simp only [uploadToSharePoint, if_neg hgt]
      split
      · rfl
      · split <;> rfl
  · intro h
    have hgt : bufLen > SIMPLE_UPLOAD_LIMIT := h
    refine ⟨?_, ?_⟩
    · intro hfail
      constructor
      · simp only [uploadToOneDrive, if_pos hgt]
        rcases hfail with h1 | h2
        · rw [if_pos h1]
        · split <;> rfl
      · simp only [uploadToSharePoint, if_pos hgt]
        rcases hfail with h1 | h2
        · rw [if_pos h1]
        · split <;> rfl
    · intro h1 h2
      have hn1 : ¬ statusOk env.sessionRes.status = false := by rw [h1]; simp
      have hn2 : ¬ truthy env.sessionRes.uploadUrl = false := by rw [h2]; simp
      refine ⟨?_, ?_, ?_, ?_⟩ <;>
        simp only [uploadToOneDrive, uploadToSharePoint, if_pos hgt, if_neg hn1, if_neg hn2,
          submittedChunks, resumableResult]

/-- Concrete inputs discharging both branches of C5: a 100-byte payload is a
single simple `PUT`; a 10 MiB payload creates a session and runs the chunk
executor. -/
def env0 : UploadEnv :=
  { sessionRes := { status := 200, uploadUrl := some "sess" },
    simpleRes := { status := 200, id := some "i", webUrl := some "w", name := some "n" },
    chunkServer := server202 }

/-- Witness for C5 at both a small and a large payload. -/
theorem C5_strategy_by_length_witness :
    (uploadToOneDrive env0 100 "f.txt" none).1 =
      [GraphCall.simplePut StoreTarget.oneDrive "f.txt" "application/octet-stream" 100] ∧
    (uploadToSharePoint env0 "site" 10485760 "f.txt" none).1 =
      GraphCall.createSession (StoreTarget.sharePoint "site") "f.txt" ::
        (submittedChunks env0.chunkServer 10485760).map GraphCall.chunkPut :=
  ⟨((C5_strategy_by_length env0 "site" 100 "f.txt" none).1
      (by norm_num [SIMPLE_UPLOAD_LIMIT])).1,
   (((C5_strategy_by_length env0 "site" 10485760 "f.txt" none).2
      (by norm_num [SIMPLE_UPLOAD_LIMIT])).2 rfl rfl).2.2.1⟩

/-- C7: a 2xx response missing a contractually required field yields a
validation error, not a partial result: the simple-upload response requires
`id`, `webUrl`, `name`; the session-creation response requires `uploadUrl`;
the drive-item-properties response requires `eTag`, `webDavUrl`, `name`. -/
theorem C7_missing_fields_validation (env : UploadEnv) (resp : ItemPropsResponse)
    (siteId itemId filename : String) (bufLen : Nat) (ct : Option String) :
    (bufLen ≤ SIMPLE_UPLOAD_LIMIT → statusOk env.simpleRes.status = true →
      (truthy env.simpleRes.id = false ∨ truthy env.simpleRes.webUrl = false ∨
        truthy env.simpleRes.name = false) →
      (uploadToOneDrive env bufLen filename ct).2 =
        Except.error
          (UploadError.validation "OneDrive upload response missing required fields") ∧
      (uploadToSharePoint env siteId bufLen filename ct).2 =
        Except.error
          (UploadError.validation "SharePoint upload response missing required fields")) ∧
    (SIMPLE_UPLOAD_LIMIT < bufLen → statusOk env.sessionRes.status = true →
      truthy env.sessionRes.uploadUrl = false →
      (uploadToOneDrive env bufLen filename ct).2 =
        Except.error
          (UploadError.validation "OneDrive create upload session response missing uploadUrl") ∧
      (uploadToSharePoint env siteId bufLen filename ct).2 =
        Except.error
          (UploadError.validation
            "SharePoint create upload session response missing uploadUrl")) ∧
    (statusOk resp.status = true →
      (truthy resp.eTag = false ∨ truthy resp.webDavUrl = false ∨
        truthy resp.name = false) →
      (getDriveItemProperties resp siteId itemId).2 =
        Except.error (UploadError.validation
          "DriveItem response missing required properties (eTag, webDavUrl, or name)")) := by
  refine ⟨?_, ?_, ?_⟩
  · intro h hok hmiss
    have hgt : ¬ bufLen > SIMPLE_UPLOAD_LIMIT := by omega
    have hn : ¬ statusOk env.simpleRes.status = false := by rw [hok]; simp
    constructor
    · simp only [uploadToOneDrive, if_neg hgt, if_neg hn, if_pos hmiss]
    · simp only [uploadToSharePoint, if_neg hgt, if_neg hn, if_pos hmiss]
  · intro h hok hurl
    have hn : ¬ statusOk env.sessionRes.status = false := by rw [hok]; simp
    constructor
    · simp only [uploadToOneDrive, if_pos h, if_neg hn, if_pos hurl]
    · simp only [uploadToSharePoint, if_pos h, if_neg hn, if_pos hurl]
  · intro hok hmiss
    have hn : ¬ statusOk resp.status = false := by rw [hok]; simp
    simp only [getDriveItemProperties, if_neg hn, if_pos hmiss]

/-- Witness for C7: a 2xx simple-upload response missing `name`, a 2xx
session response missing `uploadUrl`, and a 2xx properties response missing
`eTag` each produce the validation error. -/
theorem C7_missing_fields_validation_witness :
    (uploadToOneDrive
        { sessionRes := { status := 200 },
          simpleRes := { status := 200, id := some "i", webUrl := some "w" },
          chunkServer := server202 } 100 "f.txt" none).2 =
      Except.error
        (UploadError.validation "OneDrive upload response missing required fields") ∧
    (uploadToSharePoint
        { sessionRes := { status := 200 },
          simpleRes := { status := 200, id := some "i", webUrl := some "w" },
          chunkServer := server202 } "site" 10485760 "f.txt" none).2 =
      Except.error
        (UploadError.validation "SharePoint create upload session response missing uploadUrl") ∧
    (getDriveItemProperties { status := 200, webDavUrl := some "d", name := some "n" }
        "site" "item").2 =
      Except.error (UploadError.validation
        "DriveItem response missing required properties (eTag, webDavUrl, or name)") :=
  ⟨((C7_missing_fields_validation
      { sessionRes := { status := 200 },
        simpleRes := { status := 200, id := some "i", webUrl := some "w" },
        chunkServer := server202 }
      { status := 200 } "site" "item" "f.txt" 100 none).1
      (by norm_num [SIMPLE_UPLOAD_LIMIT]) rfl (Or.inr (Or.inr rfl))).1,
   ((C7_missing_fields_validation
      { sessionRes := { status := 200 },
        simpleRes := { status := 200, id := some "i", webUrl := some "w" },
        chunkServer := server202 }
      { status := 200 } "site" "item" "f.txt" 10485760 none).2.1
      (by norm_num [SIMPLE_UPLOAD_LIMIT]) rfl rfl).2,
   (C7_missing_fields_validation
      { sessionRes := { status := 200 },
        simpleRes := { status := 200, id := some "i", webUrl := some "w" },
        chunkServer := server202 }
      { status := 200, webDavUrl := some "d", name := some "n" }
      "site" "item" "f.txt" 100 none).2.2 rfl (Or.inl rfl)⟩

/-- The `scope` field of a `createLink` request, `none` for other calls. -/
def linkScopeOf : GraphCall → Option String
  | GraphCall.createLink _ _ _ _ s _ => some s
  | _ => none

/-- The scopes of the `createLink` requests of a trace, in order. -/
def linkScopes (t : List GraphCall) : List String := t.filterMap linkScopeOf

/-- The `recipients` field of a `createLink` request, `none` for other calls. -/
def linkRecipientsOf : GraphCall → Option (Option (List String))
  | GraphCall.createLink _ _ _ _ _ r => some r
  | _ => none

/-- The recipients fields of the `createLink` requests of a trace, in order. -/
def linkRecipientsList (t : List GraphCall) : List (Option (List String)) :=
  t.filterMap linkRecipientsOf

lemma filterMap_const_none {α β : Type} (l : List α) :
    l.filterMap (fun _ => (none : Option β)) = [] := by
  induction l with
  | nil => rfl
  | cons a l ih => simp [List.filterMap_cons, ih]

lemma upload_no_link (env : UploadEnv) (siteId : String) (bufLen : Nat) (filename : String)
    (ct : Option String) :
    ∀ c ∈ (uploadToSharePoint env siteId bufLen filename ct).1,
      linkScopeOf c = none ∧ linkRecipientsOf c = none := by
  unfold uploadToSharePoint
  split
  · dsimp only
    split
    · intro c hc
      simp only [List.mem_singleton] at hc
      subst hc
      exact ⟨rfl, rfl⟩
    · split
      · intro c hc
        simp only [List.mem_singleton] at hc
        subst hc
        exact ⟨rfl, rfl⟩
      · intro c hc
        simp only [List.mem_cons] at hc
        rcases hc with rfl | hc
        · exact ⟨rfl, rfl⟩
        · simp only [List.mem_map] at hc
          obtain ⟨s, _, rfl⟩ := hc
          exact ⟨rfl, rfl⟩
  · dsimp only
    split
    · intro c hc
      simp only [List.mem_singleton] at hc
      subst hc
      exact ⟨rfl, rfl⟩
    · split
      · intro c hc
        simp only [List.mem_singleton] at hc
        subst hc
        exact ⟨rfl, rfl⟩
      · intro c hc
        simp only [List.mem_singleton] at hc
        subst hc
        exact ⟨rfl, rfl⟩

lemma createSPLink_trace_org (resp : LinkResponse) (siteId itemId : String) :
    (createSharePointSharingLink resp siteId itemId (some SPScope.organization) none).1 =
      [GraphCall.createLink GRAPH_ROOT siteId itemId "view" "organization" none] := by
  simp [createSharePointSharingLink]

lemma createSPLink_trace_users (resp : LinkResponse) (siteId itemId : String)
    (r : List String) (hr : r ≠ []) :
    (createSharePointSharingLink resp siteId itemId (some SPScope.users) (some r)).1 =
      [GraphCall.createLink GRAPH_BETA siteId itemId "view" "users" (some r)] := by
  simp [createSharePointSharingLink, hr]

/-- C6: in `uploadAndShareSharePoint`, per-recipient (`users`) scoping is
requested if and only if per-user sharing was requested, a chat id was
supplied, and member resolution succeeded with at least one member; a failed
or empty member resolution yields an organization-scoped link and surfaces no
error from the member lookup (the outcome equals that of a run that never
requested per-user sharing). -/
theorem C6_scope_fallback (env : ShareEnv) (bufLen : Nat) (filename : String)
    (ct : Option String) (siteId : String) (chatId : Option String)
    (usePerUserSharing : Bool) (uploaded : OneDriveUploadResult)
    (hup : (uploadToSharePoint
        { sessionRes := env.sessionRes, simpleRes := env.simpleRes,
          chunkServer := env.chunkServer } siteId bufLen filename ct).2 =
      Except.ok uploaded) :
    linkScopes (uploadAndShareSharePoint env bufLen filename ct siteId chatId
        usePerUserSharing).1 =
      [if usePerUserSharing = true ∧ truthy chatId = true ∧
          statusOk env.membersRes.status = true ∧ membersOf env.membersRes ≠ [] then
        "users" else "organization"] ∧
    linkRecipientsList (uploadAndShareSharePoint env bufLen filename ct siteId chatId
        usePerUserSharing).1 =
      [if usePerUserSharing = true ∧ truthy chatId = true ∧
          statusOk env.membersRes.status = true ∧ membersOf env.membersRes ≠ [] then
        some ((membersOf env.membersRes).map (fun m => m.aadObjectId)) else none] ∧
    (¬ (usePerUserSharing = true ∧ truthy chatId = true ∧
          statusOk env.membersRes.status = true ∧ membersOf env.membersRes ≠ []) →
      (uploadAndShareSharePoint env bufLen filename ct siteId chatId
        usePerUserSharing).2 =
      (uploadAndShareSharePoint env bufLen filename ct siteId chatId false).2) := by
  have hnolink := upload_no_link
    { sessionRes := env.sessionRes, simpleRes := env.simpleRes,
      chunkServer := env.chunkServer } siteId bufLen filename ct
  have hnil1 : List.filterMap linkScopeOf
      (uploadToSharePoint
        { sessionRes := env.sessionRes, simpleRes := env.simpleRes,
          chunkServer := env.chunkServer } siteId bufLen filename ct).1 = [] :=
    List.filterMap_eq_nil_iff.2 (fun c hc2 => (hnolink c hc2).1)
  have hnil2 : List.filterMap linkRecipientsOf
      (uploadToSharePoint
        { sessionRes := env.sessionRes, simpleRes := env.simpleRes,
          chunkServer := env.chunkServer } siteId bufLen filename ct).1 = [] :=
    List.filterMap_eq_nil_iff.2 (fun c hc2 => (hnolink c hc2).2)
  by_cases hc : usePerUserSharing = true ∧ truthy chatId = true
  · by_cases hs : statusOk env.membersRes.status = true
    · by_cases hm : membersOf env.membersRes = []
      · have hcond : ¬ (usePerUserSharing = true ∧ truthy chatId = true ∧
            statusOk env.membersRes.status = true ∧ membersOf env.membersRes ≠ []) := by
          intro hP
          exact hP.2.2.2 hm
        have hnf : ¬ statusOk env.membersRes.status = false := by rw [hs]; simp
        refine ⟨?_, ?_, ?_⟩
        · simp only [uploadAndShareSharePoint, hup, getChatMembers, if_pos hc, if_neg hnf,
            hm, List.length_nil, gt_iff_lt, lt_irrefl, if_false, createSPLink_trace_org,
            linkScopes, List.filterMap_append, if_neg hcond]
          rw [hnil1]
          simp [linkScopeOf]
        · simp only [uploadAndShareSharePoint, hup, getChatMembers, if_pos hc, if_neg hnf,
            hm, List.length_nil, gt_iff_lt, lt_irrefl, if_false, createSPLink_trace_org,
            linkRecipientsList, List.filterMap_append, if_neg hcond]
          rw [hnil2]
          simp [linkRecipientsOf]
        · intro _
          simp only [uploadAndShareSharePoint, hup, getChatMembers, if_pos hc, if_neg hnf,
            hm, List.length_nil, gt_iff_lt, lt_irrefl, if_false]
          simp
      · have hcond : usePerUserSharing = true ∧ truthy chatId = true ∧
            statusOk env.membersRes.status = true ∧ membersOf env.membersRes ≠ [] :=
          ⟨hc.1, hc.2, hs, hm⟩
        have hnf : ¬ statusOk env.membersRes.status = false := by rw [hs]; simp
        have hlen : 0 < (membersOf env.membersRes).length := List.length_pos.2 hm
        have hmap : (membersOf env.membersRes).map (fun m => m.aadObjectId) ≠ [] := by
          intro hx
          exact hm (List.map_eq_nil_iff.1 hx)
        refine ⟨?_, ?_, ?_⟩
        · simp only [uploadAndShareSharePoint, hup, getChatMembers, if_pos hc, if_neg hnf,
            gt_iff_lt, if_pos hlen, createSPLink_trace_users _ _ _ _ hmap,
            linkScopes, List.filterMap_append, if_pos hcond]
          rw [hnil1]
          simp [linkScopeOf]
        · simp only [uploadAndShareSharePoint, hup, getChatMembers, if_pos hc, if_neg hnf,
            gt_iff_lt, if_pos hlen, createSPLink_trace_users _ _ _ _ hmap,
            linkRecipientsList, List.filterMap_append, if_pos hcond]
          rw [hnil2]
          simp [linkRecipientsOf]
        · intro hP
          exact absurd hcond hP
    · have hcond : ¬ (usePerUserSharing = true ∧ truthy chatId = true ∧
          statusOk env.membersRes.status = true ∧ membersOf env.membersRes ≠ []) := by
        intro hP
        exact hs hP.2.2.1
      have hnf : statusOk env.membersRes.status = false := by
        cases hx : statusOk env.membersRes.status
        · rfl
        · exact absurd hx hs
      refine ⟨?_, ?_, ?_⟩
      · simp only [uploadAndShareSharePoint, hup, getChatMembers, if_pos hc, if_pos hnf,
          createSPLink_trace_org, linkScopes, List.filterMap_append, if_neg hcond]
        rw [hnil1]
        simp [linkScopeOf]
      · simp only [uploadAndShareSharePoint, hup, getChatMembers, if_pos hc, if_pos hnf,
          createSPLink_trace_org, linkRecipientsList, List.filterMap_append, if_neg hcond]
        rw [hnil2]
        simp [linkRecipientsOf]
      · intro _
        simp only [uploadAndShareSharePoint, hup, getChatMembers, if_pos hc, if_pos hnf]
        simp
  · have hcond : ¬ (usePerUserSharing = true ∧ truthy chatId = true ∧
        statusOk env.membersRes.status = true ∧ membersOf env.membersRes ≠ []) := by
      intro hP
      exact hc ⟨hP.1, hP.2.1⟩
    refine ⟨?_, ?_, ?_⟩
    · simp only [uploadAndShareSharePoint, hup, if_neg hc, createSPLink_trace_org,
        linkScopes, List.filterMap_append, if_neg hcond]
      rw [hnil1]
      simp [linkScopeOf]
    · simp only [uploadAndShareSharePoint, hup, if_neg hc, createSPLink_trace_org,
        linkRecipientsList, List.filterMap_append, if_neg hcond]
      rw [hnil2]
      simp [linkRecipientsOf]
    · intro _
      simp only [uploadAndShareSharePoint, hup, if_neg hc]
      simp

/-- A share environment in which everything succeeds: small simple upload,
one resolvable chat member, link creation ok. -/
def shareEnv0 : ShareEnv :=
  { sessionRes := { status := 200, uploadUrl := some "sess" },
    simpleRes := { status := 200, id := some "i", webUrl := some "w", name := some "n" },
    chunkServer := server202,
    membersRes := { status := 200, value := some [{ userId := some "u1" }] },
    linkRes := { status := 200, linkWebUrl := some "share" } }

/-- Witness for C6: with per-user sharing requested, a chat id present and one
resolvable member, the single link request uses `users` scope with that
recipient. -/
theorem C6_scope_fallback_witness :
    linkScopes (uploadAndShareSharePoint shareEnv0 100 "f.txt" none "site" (some "chat")
        true).1 =
      [if true = true ∧ truthy (some "chat") = true ∧
          statusOk shareEnv0.membersRes.status = true ∧ membersOf shareEnv0.membersRes ≠ [] then
        "users" else "organization"] ∧
    linkRecipientsList (uploadAndShareSharePoint shareEnv0 100 "f.txt" none "site" (some "chat")
        true).1 =
      [if true = true ∧ truthy (some "chat") = true ∧
          statusOk shareEnv0.membersRes.status = true ∧ membersOf shareEnv0.membersRes ≠ [] then
        some ((membersOf shareEnv0.membersRes).map (fun m => m.aadObjectId)) else none] ∧
    (¬ (true = true ∧ truthy (some "chat") = true ∧
          statusOk shareEnv0.membersRes.status = true ∧ membersOf shareEnv0.membersRes ≠ []) →
      (uploadAndShareSharePoint shareEnv0 100 "f.txt" none "site" (some "chat") true).2 =
      (uploadAndShareSharePoint shareEnv0 100 "f.txt" none "site" (some "chat") false).2) :=
  C6_scope_fallback shareEnv0 100 "f.txt" none "site" (some "chat") true
    { id := "i", webUrl := "w", name := "n" } rfl

/-- Modelled from the spec: a well-formed per-recipient link request states
scope `users` together with a present, non-empty recipients list (spec 4.4:
the recipient list is "required and non-empty when scope is per-recipient"). -/
def isWellFormedPerRecipientRequest : GraphCall → Prop
  | GraphCall.createLink _ _ _ _ s r => s = "users" ∧ r.getD [] ≠ []
  | _ => False

/-- C8: a `createSharePointSharingLink` call with per-recipient (`users`)
scope and an empty or absent recipient list sends its one request without a
`recipients` field, so what proceeds is not a well-formed per-recipient link
request (which requires a non-empty recipient list). -/
theorem C8_users_scope_needs_recipients (resp : LinkResponse) (siteId itemId : String)
    (r : Option (List String)) (hr : r = none ∨ r = some []) :
    (createSharePointSharingLink resp siteId itemId (some SPScope.users) r).1 =
      [GraphCall.createLink GRAPH_BETA siteId itemId "view" "users" none] ∧
    ∀ c ∈ (createSharePointSharingLink resp siteId itemId (some SPScope.users) r).1,
      ¬ isWellFormedPerRecipientRequest c := by
  have hre : r.getD [] = [] := by
    rcases hr with h | h <;> simp [h]
  have htrace : (createSharePointSharingLink resp siteId itemId (some SPScope.users) r).1 =
      [GraphCall.createLink GRAPH_BETA siteId itemId "view" "users" none] := by
    simp [createSharePointSharingLink, hre]
  refine ⟨htrace, ?_⟩
  intro c hcm
  rw [htrace] at hcm
  simp only [List.mem_singleton] at hcm
  subst hcm
  simp [isWellFormedPerRecipientRequest]

/-- Witness for C8 with an absent recipient list. -/
theorem C8_users_scope_needs_recipients_witness :
    (createSharePointSharingLink { status := 200, linkWebUrl := some "s" } "site" "item"
        (some SPScope.users) none).1 =
      [GraphCall.createLink GRAPH_BETA "site" "item" "view" "users" none] ∧
    ∀ c ∈ (createSharePointSharingLink { status := 200, linkWebUrl := some "s" } "site" "item"
        (some SPScope.users) none).1,
      ¬ isWellFormedPerRecipientRequest c :=
  C8_users_scope_needs_recipients { status := 200, linkWebUrl := some "s" } "site" "item"
    none (Or.inl rfl)

/-- C9: `createSharePointSharingLink` chooses the API surface by scope — the
beta root for per-recipient (`users`) scope, the stable v1.0 root for
organization scope — and sends body `{type: "view", scope}` with a
`recipients` field exactly when `users` scope is used with a non-empty
recipient list. -/
theorem C9_link_endpoint_and_body (resp : LinkResponse) (siteId itemId : String)
    (scopeParam : Option SPScope) (r : Option (List String)) :
    (createSharePointSharingLink resp siteId itemId scopeParam r).1 =
      [GraphCall.createLink
        (if scopeParam.getD SPScope.organization = SPScope.users then GRAPH_BETA
         else GRAPH_ROOT)
        siteId itemId "view"
        (if scopeParam.getD SPScope.organization = SPScope.users then "users"
         else "organization")
        (if scopeParam.getD SPScope.organization = SPScope.users ∧ r.getD [] ≠ [] then
          some (r.getD []) else none)] ∧
    GRAPH_BETA = "https://graph.microsoft.com/beta" ∧
    GRAPH_ROOT = "https://graph.microsoft.com/v1.0" :=
  ⟨rfl, rfl, rfl⟩

lemma truthy_userId_eq (m : MemberEntry) :
    (!(m.userId.getD "").isEmpty) = truthy m.userId := by
  cases m.userId <;> rfl

lemma membersOf_eq_filter_map (resp : MembersResponse) :
    membersOf resp =
      ((resp.value.getD []).filter (fun m => truthy m.userId)).map
        (fun m => { aadObjectId := m.userId.getD "", displayName := m.displayName : ChatMember }) := by
  unfold membersOf
  generalize resp.value.getD [] = l
  induction l with
  | nil => rfl
  | cons a l ih =>
    simp only [List.map_cons, List.filter_cons]
    simp only [truthy_userId_eq]
    cases htr : truthy a.userId <;> simp [htr, ih]

lemma filter_false_of_all {α : Type} (l : List α) (p : α → Bool)
    (h : ∀ a ∈ l, p a = false) : l.filter p = [] := by
  induction l with
  | nil => rfl
  | cons a l ih =>
    rw [List.filter_cons, h a (List.mem_cons_self a l)]
    exact ih (fun x hx => h x (List.mem_cons_of_mem a hx))

/-- C10: on a 2xx chat-members response, `getChatMembers` returns exactly the
entries whose `userId` is present and non-empty, mapped to `ChatMember`
records in order; it returns the empty list — not an error — both when every
entry is dropped and when the body omits the `value` array; no field of the
2xx response is required. -/
theorem C10_members_parsing (resp : MembersResponse) (chatId : String)
    (hok : statusOk resp.status = true) :
    (getChatMembers resp chatId).2 =
      Except.ok (((resp.value.getD []).filter (fun m => truthy m.userId)).map
        (fun m => { aadObjectId := m.userId.getD "", displayName := m.displayName : ChatMember })) ∧
    (resp.value = none → (getChatMembers resp chatId).2 = Except.ok []) ∧
    ((∀ m ∈ resp.value.getD [], truthy m.userId = false) →
      (getChatMembers resp chatId).2 = Except.ok []) := by
  have hn : ¬ statusOk resp.status = false := by rw [hok]; simp
  have hmain : (getChatMembers resp chatId).2 = Except.ok (membersOf resp) := by
    simp [getChatMembers, hn]
  refine ⟨?_, ?_, ?_⟩
  · rw [hmain, membersOf_eq_filter_map]
  · intro hv
    rw [hmain]
    unfold membersOf
    rw [hv]
    rfl
  · intro hall
    rw [hmain, membersOf_eq_filter_map,
      filter_false_of_all (resp.value.getD []) (fun m => truthy m.userId) hall]
    rfl

/-- Witness for C10: a 2xx response with one resolvable member, one entry
without `userId` and one with an empty `userId` keeps exactly the first. -/
theorem C10_members_parsing_witness :
    (getChatMembers
        { status := 200,
          value := some [{ userId := some "u1", displayName := some "A" },
            { userId := none }, { userId := some "" }] } "chat").2 =
      Except.ok ((([{ userId := some "u1", displayName := some "A" },
            { userId := none }, { userId := some "" }] :
          List MemberEntry).filter (fun m => truthy m.userId)).map
        (fun m => { aadObjectId := m.userId.getD "", displayName := m.displayName : ChatMember })) ∧
    ((some [{ userId := some "u1", displayName := some "A" },
        { userId := none }, { userId := some "" }] : Option (List MemberEntry)) = none →
      (getChatMembers
        { status := 200,
          value := some [{ userId := some "u1", displayName := some "A" },
            { userId := none }, { userId := some "" }] } "chat").2 = Except.ok []) ∧
    ((∀ m ∈ ((some [{ userId := some "u1", displayName := some "A" },
          { userId := none }, { userId := some "" }] :
        Option (List MemberEntry)).getD []), truthy m.userId = false) →
      (getChatMembers
        { status := 200,
          value := some [{ userId := some "u1", displayName := some "A" },
            { userId := none }, { userId := some "" }] } "chat").2 = Except.ok []) :=
  C10_members_parsing
    { status := 200,
      value := some [{ userId := some "u1", displayName := some "A" },
        { userId := none }, { userId := some "" }] } "chat" rfl

end GraphUpload
